import Mathlib

/-!
Shallow embedding of the MediQ result-normalization and risk-scoring pipeline
(`src/backend/api/ai_engine.py`, history/trend helpers of `src/backend/api/app.py`
and `src/api/app.py`).

Modelling conventions:
* Python floats are modelled as `ℚ`; `round(x, 2)` is modelled as rounding to the
  nearest multiple of `1/100` (`round2`).  Python rounds half-to-even while
  Mathlib's `round` rounds half-up; no statement proved here depends on the
  direction of a tie.
* `random.uniform(a, b)` is modelled as `a + r * (b - a)` for an explicit draw
  `r`; callers of the normalizer pass a stream `r : Nat → ℚ` of draws, one per
  parameter position.
* Python dict fields that may be absent are modelled as `Option`; an absent key
  and a key present with value `None` are conflated (every claim treated here is
  insensitive to the difference: `dict.get(k)` returns `None` in both cases at
  each field the claims touch).
* Supplied `confidence` values are modelled by `ConfVal`: JSON null, a number,
  or the empty string.  A truthy non-numeric string would be passed to Python's
  `float()`; no claim exercises that path, so the model's input space omits
  truthy strings.
* The SHA-256 cache fingerprint is modelled as the identity on texts: the claims
  depend only on equal texts producing equal keys.
* Wall-clock values (`processing_time`), the analysis id and the timestamp are
  passed in as parameters; the external completion engines are oracles
  `String → Option RawData`, where `none` models a raised exception.
-/

namespace MediQ

/-- `round(x, 2)`: round to the nearest hundredth (ties: half-up). -/
def round2 (q : ℚ) : ℚ := (round (100 * q) : ℤ) / 100

/-- A value supplied for a parameter's `confidence` key: JSON null, a number,
or the empty string (see the modelling conventions above). -/
inductive ConfVal where
  | nul : ConfVal
  | num (q : ℚ) : ConfVal
  | emptyStr : ConfVal
deriving DecidableEq

/-- Python truthiness of a `ConfVal` (`None`, `0`, `0.0` and `""` are falsy). -/
def ConfVal.truthy : ConfVal → Bool
  | .nul => false
  | .num q => q != 0
  | .emptyStr => false

/-- Python `float(v)`.  In the source this is applied only to truthy values,
i.e. to nonzero numbers; the falsy branches here are never reached. -/
def ConfVal.pyFloat : ConfVal → ℚ
  | .nul => 0
  | .num q => q
  | .emptyStr => 0

/-- The Python idiom `a or b` used for confidence defaulting at
`ai_engine.py:135`, followed by the `float(...)` coercion of line 145. -/
def pyOr (a : Option ConfVal) (b : ℚ) : ℚ :=
  match a with
  | some v => if v.truthy then v.pyFloat else b
  | none => b

/-- `generate_confidence` (`ai_engine.py:63-71`); `r` is the uniform draw in
`[0,1]` backing `random.uniform`. -/
def generate_confidence (status : String) (r : ℚ) : ℚ :=
  let status := status.toLower
  if status = "normal" then round2 (85/100 + r * (98/100 - 85/100))
  else if status = "low" ∨ status = "high" then round2 (75/100 + r * (90/100 - 75/100))
  else if status = "critical" then round2 (65/100 + r * (85/100 - 65/100))
  else round2 (60/100 + r * (80/100 - 60/100))

/-- `is_red_flag` (`ai_engine.py:73-74`). -/
def is_red_flag (status : String) : Bool := status.toLower == "critical"

/-- A normalized biomarker parameter (the dict built at `ai_engine.py:139-148`). -/
structure Param where
  name : String
  value : String
  unit : String
  normalRange : String
  status : String
  confidence : ℚ
  explanation : String
  red_flag : Bool
deriving DecidableEq

/-- The dict returned by `calculate_risk_score` (`ai_engine.py:109-115`). -/
structure RiskMetrics where
  health_score : ℤ
  overall_risk : String
  critical_count : ℕ
  abnormal_count : ℕ
  average_confidence : ℚ
deriving DecidableEq

/-- Loop state of `calculate_risk_score` (`ai_engine.py:81-84`). -/
structure ScoreAcc where
  score : ℤ
  critical : ℕ
  abnormal : ℕ
  confidence_sum : ℚ
deriving DecidableEq

/-- One iteration of the loop at `ai_engine.py:86-97`. -/
def scoreStep (acc : ScoreAcc) (p : Param) : ScoreAcc :=
  let acc := { acc with confidence_sum := acc.confidence_sum + p.confidence }
  if p.status = "critical" then
    { acc with score := acc.score - 25, critical := acc.critical + 1 }
  else if p.status = "high" ∨ p.status = "low" then
    { acc with score := acc.score - 12, abnormal := acc.abnormal + 1 }
  else if p.status = "normal" then
    { acc with score := acc.score - 2 }
  else
    acc

/-- `calculate_risk_score` (`ai_engine.py:80-115`). -/
def calculate_risk_score (parameters : List Param) : RiskMetrics :=
  let acc := parameters.foldl scoreStep ⟨100, 0, 0, 0⟩
  let score : ℤ := max 5 (min 100 acc.score)
  let avg : ℚ := round2 (acc.confidence_sum / (max parameters.length 1 : ℕ))
  let risk : String :=
    if score ≥ 75 then "low-risk"
    else if score ≥ 45 then "moderate-risk"
    else "high-risk"
  { health_score := score
    overall_risk := risk
    critical_count := acc.critical
    abnormal_count := acc.abnormal
    average_confidence := avg }

/-- The deduction the scoring loop applies for one parameter. -/
def deduction (p : Param) : ℤ :=
  if p.status = "critical" then 25
  else if p.status = "high" ∨ p.status = "low" then 12
  else if p.status = "normal" then 2
  else 0

/-- Parameter counted by `critical_count`. -/
def isCrit (p : Param) : Bool := p.status == "critical"

/-- Parameter counted by `abnormal_count`. -/
def isAbn (p : Param) : Bool := p.status == "high" || p.status == "low"

/-- Parameter with status `"normal"`. -/
def isNorm (p : Param) : Bool := p.status == "normal"

/-- A parameter carrying only the fields the scorer reads. -/
def mkParam (status : String) (confidence : ℚ) : Param :=
  ⟨"", "", "", "", status, confidence, "", is_red_flag status⟩

/-- The worked example of the spec: `[{status:critical}, {status:high},
{status:normal}]` (confidences arbitrary; the scorer ignores them for the
score and the counts). -/
def exampleParams : List Param :=
  [mkParam "critical" (8/10), mkParam "high" (8/10), mkParam "normal" (9/10)]

/-- A raw parameter dict from an upstream engine (fields optional). -/
structure RawParam where
  name : Option String
  value : Option String
  unit : Option String
  normalRange : Option String
  status : Option String
  confidence : Option ConfVal
  explanation : Option String
deriving DecidableEq

/-- A raw `user_profile` dict (fields optional). -/
structure RawProfile where
  name : Option String
  age : Option String
  gender : Option String
deriving DecidableEq

/-- A raw top-level dict from an upstream engine (all keys optional). -/
structure RawData where
  user_profile : Option RawProfile
  parameters : Option (List RawParam)
  summary : Option String
  recommendations : Option (List String)
deriving DecidableEq

/-- The inner helper `safe` of `normalize_result` (`ai_engine.py:128-129`)
with its default `""`. -/
def safe (v : Option String) : String := v.getD ""

/-- The normalized `user_profile` block. -/
structure Profile where
  name : String
  age : String
  gender : String
deriving DecidableEq

/-- The audit metadata block (`ai_engine.py:164-171`). -/
structure Audit where
  analysis_id : String
  timestamp : String
  engine : String
  engine_version : String
  processing_time_ms : ℤ
  cache_hit : Bool
deriving DecidableEq

/-- A normalized report (`ai_engine.py:152-172`). -/
structure Report where
  user_profile : Profile
  parameters : List Param
  summary : String
  recommendations : List String
  risk_metrics : RiskMetrics
  audit : Audit
deriving DecidableEq

def ENGINE_VERSION : String := "v5.0-prod"

/-- Python `int(q)` (truncation toward zero). -/
def pyInt (q : ℚ) : ℤ := if 0 ≤ q then ⌊q⌋ else ⌈q⌉

/-- The per-parameter body of the loop at `ai_engine.py:133-148`; `r` is the
uniform draw consumed if a confidence must be synthesized. -/
def normalize_param (p : RawParam) (r : ℚ) : Param :=
  let status := (p.status.getD "normal").toLower
  let confidence := pyOr p.confidence (generate_confidence status r)
  let nm := p.name.getD "This biomarker"
  let template := nm ++ " interpreted as " ++ status ++ "."
  let explanation :=
    match p.explanation with
    | some s => if s = "" then template else s
    | none => template
  { name := safe p.name
    value := safe p.value
    unit := safe p.unit
    normalRange := safe p.normalRange
    status := status
    confidence := confidence
    explanation := explanation
    red_flag := is_red_flag status }

/-- `normalize_result` (`ai_engine.py:121-174`).  `r` supplies the uniform
draws (one per parameter position); `analysis_id` and `timestamp` stand for the
time-derived audit fields. -/
def normalize_result (data : RawData) (engine : String) (processing_time : ℚ)
    (cache_hit : Bool) (r : ℕ → ℚ) (analysis_id timestamp : String) : Report :=
  let rawParams := data.parameters.getD []
  let parameters := rawParams.enum.map (fun ip => normalize_param ip.2 (r ip.1))
  let risk_metrics := calculate_risk_score parameters
  let prof := data.user_profile.getD ⟨none, none, none⟩
  { user_profile := ⟨safe prof.name, safe prof.age, safe prof.gender⟩
    parameters := parameters
    summary := safe data.summary
    recommendations := data.recommendations.getD []
    risk_metrics := risk_metrics
    audit :=
      { analysis_id := analysis_id
        timestamp := timestamp
        engine := engine
        engine_version := ENGINE_VERSION
        processing_time_ms := pyInt (processing_time * 1000)
        cache_hit := cache_hit } }

/-- A raw parameter supplying an out-of-range confidence of `2`. -/
def overConfParam : RawParam :=
  ⟨none, none, none, none, some "high", some (.num 2), none⟩

/-- Raw upstream data containing `overConfParam`. -/
def overConfData : RawData :=
  ⟨none, some [overConfParam], none, none⟩

/-- Raw upstream data with every key absent. -/
def emptyRawData : RawData := ⟨none, none, none, none⟩

/-- A raw parameter supplying the falsy confidence `0`. -/
def zeroConfParam : RawParam :=
  ⟨some "Glucose", none, none, none, some "normal", some (.num 0), none⟩

/-- A raw parameter supplying the in-range confidence `1/2`. -/
def halfConfParam : RawParam :=
  ⟨none, none, none, none, some "high", some (.num (1/2)), none⟩

/-- Raw upstream data containing `halfConfParam`. -/
def halfConfData : RawData :=
  ⟨none, some [halfConfParam], none, none⟩

/-- `analyze_with_regex` (`ai_engine.py:237-242`): the terminal offline
fallback.  It never raises; `user_profile` is the present-but-empty dict,
`parameters` the empty list, and no `recommendations` key exists. -/
def analyze_with_regex (_text : String) : RawData :=
  { user_profile := some ⟨none, none, none⟩
    parameters := some []
    summary := some "Offline extraction used."
    recommendations := none }

/-- `get_text_hash` (`ai_engine.py:42-43`).  The SHA-256 hex digest is
modelled as the identity on texts: every claim proved here depends only on
equal texts producing equal cache keys. -/
def get_text_hash (text : String) : String := text

/-- The module-level `CACHE` dict, as an association list (most recent first). -/
def Cache : Type := List (String × Report)

/-- Mutation of the entry stored under key `k` (Python mutates the cached dict
in place, so the store keeps pointing at the updated object). -/
def cacheUpdate (c : Cache) (k : String) (v : Report) : Cache :=
  (c : List (String × Report)).map (fun kv => if kv.1 = k then (k, v) else kv)

/-- Lookup in the `CACHE` dict. -/
def cacheLookup (c : Cache) (k : String) : Option Report :=
  (c : List (String × Report)).lookup k

/-- The in-place audit mutation performed on a cache hit
(`ai_engine.py:255-257`). -/
def cacheHitAudit (rep : Report) : Report :=
  { rep with audit :=
      { rep.audit with cache_hit := true, engine := "cache", processing_time_ms := 1 } }

/-- `analyze_medical_text` (`ai_engine.py:248-282`).  `gemini` and `groq` are
oracles for the two engines (`none` models a raised exception); `elapsed` is
the measured wall-clock time; the pair returned is (report, CACHE after the
call). -/
def analyze_medical_text (gemini groq : String → Option RawData) (r : ℕ → ℚ)
    (elapsed : ℚ) (analysis_id timestamp : String) (cache : Cache)
    (text : String) : Report × Cache :=
  let text_hash := get_text_hash text
  match cacheLookup cache text_hash with
  | some cached =>
      let updated := cacheHitAudit cached
      (updated, cacheUpdate cache text_hash updated)
  | none =>
      let rawEngine : RawData × String :=
        match gemini text with
        | some d => (d, "gemini")
        | none =>
            match groq text with
            | some d => (d, "groq")
            | none => (analyze_with_regex text, "regex")
      let normalized :=
        normalize_result rawEngine.1 rawEngine.2 elapsed false r analysis_id timestamp
      (normalized, (text_hash, normalized) :: cache)

/-- A history snapshot, reduced to the field the trend/window logic reads. -/
structure HEntry where
  health_score : ℤ
deriving DecidableEq

/-- The history append of `app.py` (`backend/api/app.py:156-158`,
`api/app.py:149-151`): append, then `pop(0)` once if the length exceeds 15. -/
def pushHistory {α : Type} (h : List α) (e : α) : List α :=
  let h2 := h ++ [e]
  if h2.length > 15 then h2.tail else h2

/-- `calculate_trend` (`backend/api/app.py:67-81`, `api/app.py:58-69`).
Negative indexing `history[-1]`, `history[-2]` is read off the reversed list;
the `health_score` key is always present on history entries, so the
`except` path is dead. -/
def calculate_trend (history : List HEntry) : String :=
  if history.length < 2 then "stable"
  else
    match history.reverse with
    | current :: previous :: _ =>
        if current.health_score > previous.health_score then "improving"
        else if current.health_score < previous.health_score then "declining"
        else "stable"
    | _ => "stable"

/-! ## Scoring loop characterization -/

theorem scoreStep_score (acc : ScoreAcc) (p : Param) :
    (scoreStep acc p).score = acc.score - deduction p := by
  simp only [scoreStep, deduction]
  split_ifs <;> simp

theorem scoreStep_critical (acc : ScoreAcc) (p : Param) :
    (scoreStep acc p).critical = acc.critical + (if isCrit p then 1 else 0) := by
  simp only [scoreStep, isCrit]
  split_ifs with h1 h2 h3 <;> simp_all

theorem scoreStep_abnormal (acc : ScoreAcc) (p : Param) :
    (scoreStep acc p).abnormal = acc.abnormal + (if isAbn p then 1 else 0) := by
  simp only [scoreStep, isAbn]
  split_ifs with h1 h2 h3 <;> simp_all

theorem foldl_scoreStep_score (ps : List Param) :
    ∀ acc : ScoreAcc, (ps.foldl scoreStep acc).score = acc.score - (ps.map deduction).sum := by
  induction ps with
  | nil => intro acc; simp
  | cons p ps ih =>
      intro acc
      simp only [List.foldl_cons, List.map_cons, List.sum_cons, ih, scoreStep_score]
      ring

theorem foldl_scoreStep_critical (ps : List Param) :
    ∀ acc : ScoreAcc, (ps.foldl scoreStep acc).critical = acc.critical + ps.countP isCrit := by
  induction ps with
  | nil => intro acc; simp
  | cons p ps ih =>
      intro acc
      simp only [List.foldl_cons, List.countP_cons, ih, scoreStep_critical]
      by_cases hc : isCrit p <;> simp [hc] <;> omega

theorem foldl_scoreStep_abnormal (ps : List Param) :
    ∀ acc : ScoreAcc, (ps.foldl scoreStep acc).abnormal = acc.abnormal + ps.countP isAbn := by
  induction ps with
  | nil => intro acc; simp
  | cons p ps ih =>
      intro acc
      simp only [List.foldl_cons, List.countP_cons, ih, scoreStep_abnormal]
      by_cases hc : isAbn p <;> simp [hc] <;> omega

theorem deduction_eq_counts (p : Param) :
    deduction p = 25 * (if isCrit p then (1 : ℤ) else 0)
      + 12 * (if isAbn p then (1 : ℤ) else 0)
      + 2 * (if isNorm p then (1 : ℤ) else 0) := by
  simp only [deduction, isCrit, isAbn, isNorm]
  by_cases h1 : p.status = "critical" <;>
    by_cases h2 : p.status = "high" ∨ p.status = "low" <;>
      by_cases h3 : p.status = "normal" <;>
        simp_all

theorem sum_deduction (ps : List Param) :
    (ps.map deduction).sum = 25 * (ps.countP isCrit : ℤ)
      + 12 * (ps.countP isAbn : ℤ) + 2 * (ps.countP isNorm : ℤ) := by
  induction ps with
  | nil => simp
  | cons p ps ih =>
      simp only [List.map_cons, List.sum_cons, List.countP_cons, ih, deduction_eq_counts]
      by_cases h1 : isCrit p <;> by_cases h2 : isAbn p <;> by_cases h3 : isNorm p <;>
        simp [h1, h2, h3] <;> push_cast <;> ring

theorem calculate_risk_score_health (ps : List Param) :
    (calculate_risk_score ps).health_score =
      max 5 (min 100 (100 - (25 * (ps.countP isCrit : ℤ)
        + 12 * (ps.countP isAbn : ℤ) + 2 * (ps.countP isNorm : ℤ)))) := by
  simp only [calculate_risk_score, foldl_scoreStep_score, sum_deduction]

theorem calculate_risk_score_critical (ps : List Param) :
    (calculate_risk_score ps).critical_count = ps.countP isCrit := by
  simp [calculate_risk_score, foldl_scoreStep_critical]

theorem calculate_risk_score_abnormal (ps : List Param) :
    (calculate_risk_score ps).abnormal_count = ps.countP isAbn := by
  simp [calculate_risk_score, foldl_scoreStep_abnormal]

theorem calculate_risk_score_risk (ps : List Param) :
    (calculate_risk_score ps).overall_risk =
      (if (calculate_risk_score ps).health_score ≥ 75 then "low-risk"
       else if (calculate_risk_score ps).health_score ≥ 45 then "moderate-risk"
       else "high-risk") := rfl

theorem calculate_risk_score_bounds (ps : List Param) :
    5 ≤ (calculate_risk_score ps).health_score ∧
      (calculate_risk_score ps).health_score ≤ 100 := by
  simp only [calculate_risk_score]
  constructor
  · exact le_max_left _ _
  · exact max_le (by norm_num) (min_le_left _ _)

/-! ## Claim theorems: risk scoring -/

/-- C1: the risk scorer starts from 100, subtracts 25 per `"critical"`
parameter (counting it in `critical_count`), 12 per `"high"`/`"low"` parameter
(counting it in `abnormal_count`), 2 per `"normal"` parameter and nothing
otherwise, then clamps into `[5, 100]`; the example
`[critical, high, normal]` yields `health_score = 61`, `critical_count = 1`,
`abnormal_count = 1`; and `5 ≤ health_score ≤ 100` for every input list. -/
theorem claim_C1_risk_score_formula :
    (∀ ps : List Param,
      (calculate_risk_score ps).health_score =
        max 5 (min 100 (100 - (25 * (ps.countP isCrit : ℤ)
          + 12 * (ps.countP isAbn : ℤ) + 2 * (ps.countP isNorm : ℤ))))
      ∧ (calculate_risk_score ps).critical_count = ps.countP isCrit
      ∧ (calculate_risk_score ps).abnormal_count = ps.countP isAbn
      ∧ 5 ≤ (calculate_risk_score ps).health_score
      ∧ (calculate_risk_score ps).health_score ≤ 100)
    ∧ (calculate_risk_score exampleParams).health_score = 61
    ∧ (calculate_risk_score exampleParams).critical_count = 1
    ∧ (calculate_risk_score exampleParams).abnormal_count = 1 := by
  refine ⟨fun ps => ⟨calculate_risk_score_health ps, calculate_risk_score_critical ps,
    calculate_risk_score_abnormal ps, (calculate_risk_score_bounds ps).1,
    (calculate_risk_score_bounds ps).2⟩, ?_, ?_, ?_⟩ <;> decide

/-- C2: `overall_risk` is `"low-risk"` iff `health_score ≥ 75`,
`"moderate-risk"` iff `45 ≤ health_score < 75`, and `"high-risk"` otherwise
(iff `health_score < 45`). -/
theorem claim_C2_risk_tiers (ps : List Param) :
    ((calculate_risk_score ps).overall_risk = "low-risk"
        ↔ 75 ≤ (calculate_risk_score ps).health_score)
    ∧ ((calculate_risk_score ps).overall_risk = "moderate-risk"
        ↔ 45 ≤ (calculate_risk_score ps).health_score
          ∧ (calculate_risk_score ps).health_score < 75)
    ∧ ((calculate_risk_score ps).overall_risk = "high-risk"
        ↔ (calculate_risk_score ps).health_score < 45) := by
  rw [calculate_risk_score_risk ps]
  split_ifs with h1 h2 <;> refine ⟨?_, ?_, ?_⟩ <;> simp <;> omega

/-- C9: the risk scorer is permutation-invariant in `health_score`,
`critical_count` and `abnormal_count`. -/
theorem claim_C9_permutation_invariance (ps qs : List Param) (h : ps.Perm qs) :
    (calculate_risk_score ps).health_score = (calculate_risk_score qs).health_score
    ∧ (calculate_risk_score ps).critical_count = (calculate_risk_score qs).critical_count
    ∧ (calculate_risk_score ps).abnormal_count = (calculate_risk_score qs).abnormal_count := by
  refine ⟨?_, ?_, ?_⟩
  · rw [calculate_risk_score_health, calculate_risk_score_health,
      h.countP_eq, h.countP_eq, h.countP_eq]
  · rw [calculate_risk_score_critical, calculate_risk_score_critical, h.countP_eq]
  · rw [calculate_risk_score_abnormal, calculate_risk_score_abnormal, h.countP_eq]

/-- Witness for C9 at a concrete transposition. -/
theorem claim_C9_witness :
    (calculate_risk_score [mkParam "critical" (1/2), mkParam "high" (3/4)]).health_score
      = (calculate_risk_score [mkParam "high" (3/4), mkParam "critical" (1/2)]).health_score
    ∧ (calculate_risk_score [mkParam "critical" (1/2), mkParam "high" (3/4)]).critical_count
      = (calculate_risk_score [mkParam "high" (3/4), mkParam "critical" (1/2)]).critical_count
    ∧ (calculate_risk_score [mkParam "critical" (1/2), mkParam "high" (3/4)]).abnormal_count
      = (calculate_risk_score [mkParam "high" (3/4), mkParam "critical" (1/2)]).abnormal_count :=
  claim_C9_permutation_invariance _ _
    (List.Perm.swap (mkParam "high" (3/4)) (mkParam "critical" (1/2)) [])

/-! ## Claim theorems: history window and trend -/

/-- C7: the history window never exceeds 15 entries (the append-then-pop step
preserves `length ≤ 15`), and eviction is strictly oldest-first: inserting 16
entries into the empty history leaves exactly the last 15 in insertion order,
with the first-inserted entry absent. -/
theorem claim_C7_history_window :
    (∀ (α : Type) (h : List α) (e : α), h.length ≤ 15 → (pushHistory h e).length ≤ 15)
    ∧ (∀ (α : Type) (f : ℕ → α),
        List.foldl pushHistory [] ((List.range 16).map f)
          = (List.range 15).map (fun i => f (i + 1)))
    ∧ (∀ (α : Type) (f : ℕ → α), Function.Injective f →
        f 0 ∉ List.foldl pushHistory [] ((List.range 16).map f)) := by
  refine ⟨?_, ?_, ?_⟩
  · intro α h e hle
    simp only [pushHistory]
    split_ifs with hgt <;> simp_all <;> omega
  · intro α f
    simp [List.range_succ, pushHistory]
  · intro α f hinj hmem
    have h2 : List.foldl pushHistory ([] : List α) ((List.range 16).map f)
        = (List.range 15).map (fun i => f (i + 1)) := by
      simp [List.range_succ, pushHistory]
    rw [h2] at hmem
    simp only [List.mem_map, List.mem_range] at hmem
    obtain ⟨i, _, he⟩ := hmem
    have := hinj he
    omega

/-- Witness for C7: the window step applied at a length-3 history, and the
16-insert run with the identity labelling. -/
theorem claim_C7_witness :
    ((List.range 3).length ≤ 15 ∧ (pushHistory (List.range 3) 99).length ≤ 15)
    ∧ List.foldl pushHistory [] ((List.range 16).map (fun i => i))
        = (List.range 15).map (fun i => i + 1)
    ∧ (0 : ℕ) ∉ List.foldl pushHistory [] ((List.range 16).map (fun i => i)) :=
  ⟨⟨by decide, claim_C7_history_window.1 ℕ (List.range 3) 99 (by decide)⟩,
    claim_C7_history_window.2.1 ℕ (fun i => i),
    claim_C7_history_window.2.2 ℕ (fun i => i) (fun _ _ hab => hab)⟩

/-- C8: `calculate_trend` returns `"stable"` on 0 or 1 entries, `"improving"`
when the last entry's `health_score` strictly exceeds the second-to-last's,
`"declining"` when it is strictly smaller, and `"stable"` when equal. -/
theorem claim_C8_trend :
    (∀ h : List HEntry, h.length < 2 → calculate_trend h = "stable")
    ∧ (∀ (l : List HEntry) (p c : HEntry),
        calculate_trend (l ++ [p, c]) =
          if c.health_score > p.health_score then "improving"
          else if c.health_score < p.health_score then "declining"
          else "stable") := by
  constructor
  · intro h hl
    unfold calculate_trend
    rw [if_pos hl]
  · intro l p c
    unfold calculate_trend
    rw [if_neg (by simp)]
    have hrev : (l ++ [p, c]).reverse = c :: p :: l.reverse := by simp
    rw [hrev]

/-- Witness for C8: the empty history is stable, and `[50, 60]` is improving. -/
theorem claim_C8_witness :
    (([] : List HEntry).length < 2 ∧ calculate_trend [] = "stable")
    ∧ calculate_trend ([] ++ [⟨50⟩, ⟨60⟩]) =
        (if (HEntry.mk 60).health_score > (HEntry.mk 50).health_score then "improving"
         else if (HEntry.mk 60).health_score < (HEntry.mk 50).health_score then "declining"
         else "stable") :=
  ⟨⟨by decide, claim_C8_trend.1 [] (by decide)⟩, claim_C8_trend.2 [] ⟨50⟩ ⟨60⟩⟩

/-! ## Confidence bounds -/

theorem round2_bounds (a b : ℤ) (q : ℚ) (ha : (a : ℚ) / 100 ≤ q) (hb : q ≤ (b : ℚ) / 100) :
    (a : ℚ) / 100 ≤ round2 q ∧ round2 q ≤ (b : ℚ) / 100 := by
  unfold round2
  have hra : a ≤ round (100 * q) := by
    rw [round_eq]
    exact Int.le_floor.mpr (by push_cast; linarith)
  have hrb : round (100 * q) ≤ b := by
    rw [round_eq]
    have hfl := Int.floor_le (100 * q + 1 / 2)
    have h3 : (⌊100 * q + 1 / 2⌋ : ℚ) < (b : ℚ) + 1 := by linarith
    have h4 : ⌊100 * q + 1 / 2⌋ < b + 1 := by exact_mod_cast h3
    omega
  have hca : (a : ℚ) ≤ (round (100 * q) : ℤ) := by exact_mod_cast hra
  have hcb : ((round (100 * q) : ℤ) : ℚ) ≤ (b : ℚ) := by exact_mod_cast hrb
  constructor <;> linarith

theorem generate_confidence_bounds (status : String) (r : ℚ)
    (h0 : 0 ≤ r) (h1 : r ≤ 1) :
    3 / 5 ≤ generate_confidence status r ∧ generate_confidence status r ≤ 49 / 50 := by
  simp only [generate_confidence]
  split_ifs with hA hB hC
  · have h := round2_bounds 85 98 (85 / 100 + r * (98 / 100 - 85 / 100))
      (by push_cast; nlinarith) (by push_cast; nlinarith)
    push_cast at h
    constructor <;> linarith [h.1, h.2]
  · have h := round2_bounds 75 90 (75 / 100 + r * (90 / 100 - 75 / 100))
      (by push_cast; nlinarith) (by push_cast; nlinarith)
    push_cast at h
    constructor <;> linarith [h.1, h.2]
  · have h := round2_bounds 65 85 (65 / 100 + r * (85 / 100 - 65 / 100))
      (by push_cast; nlinarith) (by push_cast; nlinarith)
    push_cast at h
    constructor <;> linarith [h.1, h.2]
  · have h := round2_bounds 60 80 (60 / 100 + r * (80 / 100 - 60 / 100))
      (by push_cast; nlinarith) (by push_cast; nlinarith)
    push_cast at h
    constructor <;> linarith [h.1, h.2]

/-! ## Claim theorems: confidence normalization -/

/-- C5 counterexample: a supplied truthy confidence passes through `float()`
unclamped, so the raw parameter `{status: "high", confidence: 2}` yields a
normalized confidence of `2`, outside `[0, 1]`. -/
theorem claim_C5_counterexample :
    ((normalize_result overConfData "gemini" 0 false (fun _ => 0) "id" "ts").parameters.map
        Param.confidence) = [2]
    ∧ ¬ ((2 : ℚ) ≤ 1) := by
  constructor
  · rfl
  · norm_num

/-- C5 amended: every synthesized confidence lies in `[0, 1]` (indeed in
`[0.60, 0.98]`), and supplied confidences pass through unchanged — so the
`[0, 1]` invariant holds exactly when every supplied numeric confidence
already lies in `[0, 1]` and the uniform draws lie in `[0, 1]`. -/
theorem claim_C5_amended_confidence_range (data : RawData) (engine : String)
    (pt : ℚ) (ch : Bool) (r : ℕ → ℚ) (aid ts : String)
    (hsup : ∀ p ∈ data.parameters.getD [], ∀ q0 : ℚ,
      p.confidence = some (.num q0) → 0 ≤ q0 ∧ q0 ≤ 1)
    (hr : ∀ i, 0 ≤ r i ∧ r i ≤ 1) :
    ∀ pp ∈ (normalize_result data engine pt ch r aid ts).parameters,
      0 ≤ pp.confidence ∧ pp.confidence ≤ 1 := by
  intro pp hpp
  simp only [normalize_result, List.mem_map] at hpp
  obtain ⟨ip, hip, heq⟩ := hpp
  have hmemraw : ip.2 ∈ data.parameters.getD [] := by
    have := List.mem_enum_iff_get?.mp hip
    exact List.get?_mem this
  subst heq
  simp only [normalize_param, pyOr]
  set st := (ip.2.status.getD "normal").toLower with hst
  have hgen := generate_confidence_bounds st (r ip.1) (hr ip.1).1 (hr ip.1).2
  match hc : ip.2.confidence with
  | none => simp only [hc]; constructor <;> linarith [hgen.1, hgen.2]
  | some v =>
      simp only [hc]
      match v with
      | .nul => simp [ConfVal.truthy]; constructor <;> linarith [hgen.1, hgen.2]
      | .emptyStr => simp [ConfVal.truthy]; constructor <;> linarith [hgen.1, hgen.2]
      | .num q0 =>
          by_cases hq : q0 = 0
          · subst hq
            simp [ConfVal.truthy]
            constructor <;> linarith [hgen.1, hgen.2]
          · have hb := hsup ip.2 hmemraw q0 hc
            simp [ConfVal.truthy, hq, ConfVal.pyFloat]
            exact hb

/-- Witness for C5 (amended): the in-range supplied confidence `1/2` and the
draw stream `1/2` give a normalized confidence in `[0, 1]`. -/
theorem claim_C5_witness :
    0 ≤ (normalize_param halfConfParam (1/2)).confidence
    ∧ (normalize_param halfConfParam (1/2)).confidence ≤ 1 :=
  claim_C5_amended_confidence_range halfConfData "gemini" 0 false (fun _ => 1/2) "id" "ts"
    (by
      intro p hp q0 hq
      simp only [halfConfData, Option.getD_some, List.mem_singleton] at hp
      subst hp
      simp only [halfConfParam, Option.some.injEq, ConfVal.num.injEq] at hq
      subst hq
      norm_num)
    (by intro i; norm_num)
    (normalize_param halfConfParam (1/2))
    (by
      simp only [normalize_result, halfConfData, Option.getD_some, List.enum, List.enumFrom,
        List.map_cons, List.map_nil, List.mem_singleton])

/-- C10: a supplied confidence that is falsy (null, `0`, or the empty string)
is discarded exactly as if the field were absent, and the synthesized
replacement is nonzero, so a supplied confidence of `0` never survives. -/
theorem claim_C10_falsy_confidence (p : RawParam) (r : ℚ)
    (hfalsy : p.confidence = some .nul ∨ p.confidence = some (.num 0)
      ∨ p.confidence = some .emptyStr ∨ p.confidence = none) :
    normalize_param p r = normalize_param { p with confidence := none } r
    ∧ (normalize_param p r).confidence
        = generate_confidence ((p.status.getD "normal").toLower) r
    ∧ (0 ≤ r → r ≤ 1 → (normalize_param p r).confidence ≠ 0) := by
  have hgenpos : 0 ≤ r → r ≤ 1 →
      generate_confidence ((p.status.getD "normal").toLower) r ≠ 0 := by
    intro h0 h1
    have := (generate_confidence_bounds ((p.status.getD "normal").toLower) r h0 h1).1
    intro h
    rw [h] at this
    norm_num at this
  rcases hfalsy with h | h | h | h <;>
    refine ⟨by simp [normalize_param, pyOr, ConfVal.truthy, h], ?_, ?_⟩ <;>
      simp only [normalize_param, pyOr, ConfVal.truthy, h] <;>
        first
          | (intro h0 h1; simp; exact hgenpos h0 h1)
          | simp

/-- Witness for C10: the supplied confidence `0` on a `"normal"` parameter is
replaced by the synthesized value and does not survive. -/
theorem claim_C10_witness :
    normalize_param zeroConfParam (1/2)
        = normalize_param { zeroConfParam with confidence := none } (1/2)
    ∧ (normalize_param zeroConfParam (1/2)).confidence
        = generate_confidence ((zeroConfParam.status.getD "normal").toLower) (1/2)
    ∧ (normalize_param zeroConfParam (1/2)).confidence ≠ 0 :=
  ⟨(claim_C10_falsy_confidence zeroConfParam (1/2) (Or.inr (Or.inl rfl))).1,
    (claim_C10_falsy_confidence zeroConfParam (1/2) (Or.inr (Or.inl rfl))).2.1,
    (claim_C10_falsy_confidence zeroConfParam (1/2) (Or.inr (Or.inl rfl))).2.2
      (by norm_num) (by norm_num)⟩

/-! ## Claim theorems: top-level defaults -/

/-- C6 counterexample: with every key absent, the normalizer defaults the
summary to the empty string — a length-0 string, not a fixed sentinel
sentence. -/
theorem claim_C6_counterexample :
    (normalize_result emptyRawData "gemini" 0 false (fun _ => 0) "id" "ts").summary = ""
    ∧ ((normalize_result emptyRawData "gemini" 0 false (fun _ => 0) "id" "ts").summary).length
        = 0 :=
  ⟨rfl, rfl⟩

/-- C6 amended: each missing `user_profile` field defaults individually to the
empty string, a missing `recommendations` defaults to the empty list, and a
missing `summary` defaults to the empty string (not a sentinel sentence). -/
theorem claim_C6_amended_defaults (data : RawData) (engine : String) (pt : ℚ)
    (ch : Bool) (r : ℕ → ℚ) (aid ts : String) :
    (data.user_profile = none →
      (normalize_result data engine pt ch r aid ts).user_profile = ⟨"", "", ""⟩)
    ∧ (∀ prof, data.user_profile = some prof →
        (prof.name = none →
          (normalize_result data engine pt ch r aid ts).user_profile.name = "")
        ∧ (prof.age = none →
          (normalize_result data engine pt ch r aid ts).user_profile.age = "")
        ∧ (prof.gender = none →
          (normalize_result data engine pt ch r aid ts).user_profile.gender = ""))
    ∧ (data.recommendations = none →
        (normalize_result data engine pt ch r aid ts).recommendations = [])
    ∧ (data.summary = none →
        (normalize_result data engine pt ch r aid ts).summary = "") := by
  refine ⟨?_, ?_, ?_, ?_⟩
  · intro h; simp [normalize_result, h, safe]
  · intro prof h
    refine ⟨?_, ?_, ?_⟩ <;> intro hf <;> simp [normalize_result, h, hf, safe]
  · intro h; simp [normalize_result, h]
  · intro h; simp [normalize_result, h, safe]

/-- Witness for C6 (amended) at the all-absent raw dict. -/
theorem claim_C6_witness :
    ((normalize_result emptyRawData "groq" 0 false (fun _ => 0) "id" "ts").user_profile
        = ⟨"", "", ""⟩)
    ∧ (normalize_result emptyRawData "groq" 0 false (fun _ => 0) "id" "ts").recommendations = []
    ∧ (normalize_result emptyRawData "groq" 0 false (fun _ => 0) "id" "ts").summary = "" := by
  have h := claim_C6_amended_defaults emptyRawData "groq" 0 false (fun _ => 0) "id" "ts"
  exact ⟨h.1 rfl, h.2.2.1 rfl, h.2.2.2 rfl⟩

/-! ## Claim theorems: engine fallback -/

/-- C3 counterexample: when both engines raise, the returned report is tagged
with engine identifier `"regex"`, not `"error-fallback"`. -/
theorem claim_C3_counterexample :
    (analyze_medical_text (fun _ => none) (fun _ => none) (fun _ => 0) 0 "id" "ts" []
        "some report text").1.audit.engine = "regex"
    ∧ (analyze_medical_text (fun _ => none) (fun _ => none) (fun _ => 0) 0 "id" "ts" []
        "some report text").1.audit.engine ≠ "error-fallback" := by
  have h1 : (analyze_medical_text (fun _ => none) (fun _ => none) (fun _ => 0) 0 "id" "ts" []
      "some report text").1.audit.engine = "regex" := rfl
  refine ⟨h1, ?_⟩
  rw [h1]
  decide

/-- C3 amended: when the cache misses and both engine calls raise, the entry
point still returns a report (it never throws in the model), with an empty
parameter list, the fixed sentinel summary `"Offline extraction used."`, and
audit engine identifier `"regex"` (the offline fallback), not
`"error-fallback"`. -/
theorem claim_C3_amended_fallback (gemini groq : String → Option RawData)
    (r : ℕ → ℚ) (elapsed : ℚ) (aid ts : String) (cache : Cache) (text : String)
    (hmiss : cacheLookup cache (get_text_hash text) = none)
    (hg : gemini text = none) (hq : groq text = none) :
    (analyze_medical_text gemini groq r elapsed aid ts cache text).1.parameters = []
    ∧ (analyze_medical_text gemini groq r elapsed aid ts cache text).1.summary
        = "Offline extraction used."
    ∧ (analyze_medical_text gemini groq r elapsed aid ts cache text).1.audit.engine
        = "regex" := by
  simp only [analyze_medical_text, hmiss, hg, hq]
  refine ⟨?_, rfl, rfl⟩
  simp [normalize_result, analyze_with_regex]

/-- Witness for C3 (amended): empty cache and engines that always raise. -/
theorem claim_C3_witness :
    (analyze_medical_text (fun _ => none) (fun _ => none) (fun _ => 0) 0 "id" "ts" []
        "t").1.parameters = []
    ∧ (analyze_medical_text (fun _ => none) (fun _ => none) (fun _ => 0) 0 "id" "ts" []
        "t").1.summary = "Offline extraction used."
    ∧ (analyze_medical_text (fun _ => none) (fun _ => none) (fun _ => 0) 0 "id" "ts" []
        "t").1.audit.engine = "regex" :=
  claim_C3_amended_fallback (fun _ => none) (fun _ => none) (fun _ => 0) 0 "id" "ts" []
    "t" rfl rfl rfl

/-! ## Claim theorems: cache behaviour -/

theorem cacheLookup_cons_self (k : String) (v : Report) (c : Cache) :
    cacheLookup ((k, v) :: c) k = some v := by
  simp [cacheLookup, List.lookup]

theorem cacheLookup_cacheUpdate (c : Cache) (k : String) (v w : Report)
    (h : cacheLookup c k = some v) :
    cacheLookup (cacheUpdate c k w) k = some w := by
  induction c with
  | nil => simp [cacheLookup, List.lookup] at h
  | cons kv rest ih =>
      obtain ⟨k1, v1⟩ := kv
      by_cases hk : k1 = k
      · cases hk
        have hupd : cacheUpdate ((k, v1) :: rest) k w = (k, w) :: cacheUpdate rest k w := by
          simp [cacheUpdate]
        rw [hupd]
        exact cacheLookup_cons_self k w (cacheUpdate rest k w)
      · have hne : (k == k1) = false := beq_eq_false_iff_ne.mpr (fun he => hk he.symm)
        have hupd : cacheUpdate ((k1, v1) :: rest) k w = (k1, v1) :: cacheUpdate rest k w := by
          simp [cacheUpdate, hk]
        rw [hupd]
        have hlk : cacheLookup ((k1, v1) :: cacheUpdate rest k w) k
            = cacheLookup (cacheUpdate rest k w) k := by
          simp [cacheLookup, List.lookup, hne]
        rw [hlk]
        apply ih
        simpa [cacheLookup, List.lookup, hne] using h

/-- After any call of the orchestrator, the cache stores the returned report
under the text's fingerprint. -/
theorem analyze_stores_result (gemini groq : String → Option RawData) (r : ℕ → ℚ)
    (elapsed : ℚ) (aid ts : String) (cache : Cache) (text : String) :
    cacheLookup (analyze_medical_text gemini groq r elapsed aid ts cache text).2
        (get_text_hash text)
      = some (analyze_medical_text gemini groq r elapsed aid ts cache text).1 := by
  unfold analyze_medical_text
  match hlook : cacheLookup cache (get_text_hash text) with
  | some cached =>
      simp only [hlook]
      exact cacheLookup_cacheUpdate cache (get_text_hash text) cached _ hlook
  | none =>
      simp only [hlook]
      exact cacheLookup_cons_self _ _ _

/-- On a cache hit the orchestrator takes the hit branch: it returns the
stored report with its audit block mutated, and the store keeps the mutated
object. -/
theorem analyze_cache_hit (gemini groq : String → Option RawData) (r : ℕ → ℚ)
    (elapsed : ℚ) (aid ts : String) (cache : Cache) (text : String) (rep : Report)
    (h : cacheLookup cache (get_text_hash text) = some rep) :
    analyze_medical_text gemini groq r elapsed aid ts cache text
      = (cacheHitAudit rep, cacheUpdate cache (get_text_hash text) (cacheHitAudit rep)) := by
  unfold analyze_medical_text
  simp only [h]

/-- C4: a second call with byte-identical text returns the report stored by
the first call, mutated in place (the store keeps pointing at the mutated
report), with `audit.cache_hit = true`, `audit.engine = "cache"` and
`audit.processing_time_ms = 1`; the second call's result does not depend on
its engine oracles, its draws, its clock, or its id/timestamp inputs. -/
theorem claim_C4_cache_second_call (g1 q1 g2 q2 : String → Option RawData)
    (r1 r2 : ℕ → ℚ) (e1 e2 : ℚ) (a1 t1 a2 t2 : String) (cache : Cache) (text : String) :
    (analyze_medical_text g2 q2 r2 e2 a2 t2
        (analyze_medical_text g1 q1 r1 e1 a1 t1 cache text).2 text).1
      = cacheHitAudit (analyze_medical_text g1 q1 r1 e1 a1 t1 cache text).1
    ∧ (analyze_medical_text g2 q2 r2 e2 a2 t2
        (analyze_medical_text g1 q1 r1 e1 a1 t1 cache text).2 text).1.audit.cache_hit = true
    ∧ (analyze_medical_text g2 q2 r2 e2 a2 t2
        (analyze_medical_text g1 q1 r1 e1 a1 t1 cache text).2 text).1.audit.engine = "cache"
    ∧ (analyze_medical_text g2 q2 r2 e2 a2 t2
        (analyze_medical_text g1 q1 r1 e1 a1 t1 cache text).2 text).1.audit.processing_time_ms
        = 1
    ∧ cacheLookup (analyze_medical_text g2 q2 r2 e2 a2 t2
        (analyze_medical_text g1 q1 r1 e1 a1 t1 cache text).2 text).2 (get_text_hash text)
      = some (analyze_medical_text g2 q2 r2 e2 a2 t2
          (analyze_medical_text g1 q1 r1 e1 a1 t1 cache text).2 text).1 := by
  have hstore := analyze_stores_result g1 q1 r1 e1 a1 t1 cache text
  have hhit := analyze_cache_hit g2 q2 r2 e2 a2 t2
    (analyze_medical_text g1 q1 r1 e1 a1 t1 cache text).2 text
    (analyze_medical_text g1 q1 r1 e1 a1 t1 cache text).1 hstore
  refine ⟨by rw [hhit], ?_, ?_, ?_, ?_⟩
  · rw [hhit]; rfl
  · rw [hhit]; rfl
  · rw [hhit]; rfl
  · exact analyze_stores_result g2 q2 r2 e2 a2 t2 _ text

end MediQ
